import Mathlib

/-!
Verification of the `quota` package (`src/quota/enforcer.go`): a blocking,
counting semaphore (`StaticQuotaEnforcer`) with a signed atomic counter `n`
and a buffered wake channel `wait` of capacity one.

The Go code is embedded shallowly:

* `CoreState` holds the two shared fields of `StaticQuotaEnforcer`:
  the counter `q.n` (an `Int`) and the number of wake signals sent on
  `q.wait` but not yet received (`pending`).
* `StaticQuotaEnforcer.Acquire` mirrors the body of `Acquire`.  The outcome
  of the `select` race between `ctx.Done()` and `<-q.wait` is supplied as
  an explicit oracle argument `SelectOutcome`.
* `StaticQuotaEnforcer.Release` mirrors the body of `Release`.
* For trace-level claims, `Step` is the labelled transition relation of one
  enforcer used under the package's documented discipline: Acquire calls are
  synchronous (at most one outstanding blocked waiter) and only granted
  tickets are released.  Ghost fields count outstanding granted tickets,
  blocked waiters and denied (cancelled) calls.
-/

/-- The Go `Ticket` is `interface{}`.  `Acquire` produces either
`emptyTicket{}` (success) or the bare boolean `false` (denial); any other
value can also be stored in an `interface{}` and passed to `Release`,
modelled by `otherValue`. -/
inductive Ticket where
  | emptyTicket : Ticket
  | boolTicket : Bool → Ticket
  | otherValue : Nat → Ticket
  deriving DecidableEq, Repr

/-- The shared mutable state of a `StaticQuotaEnforcer`: the atomic counter
`n` and the wake channel `wait` (represented by the number of sent,
not-yet-received signals; the Go channel is buffered with capacity one). -/
structure CoreState where
  counter : Int
  pending : Nat
  deriving DecidableEq, Repr

/-- Which case of the `select` in `Acquire` fires when the slow path is
taken: the context's done channel, or a receive from `q.wait`. -/
inductive SelectOutcome where
  | ctxDone : SelectOutcome
  | wakeRecv : SelectOutcome
  deriving DecidableEq, Repr

/-- Result of one `Acquire` call: the returned ticket, whether the call
entered the blocking `select` branch, and the state it leaves behind. -/
structure AcquireResult where
  ticket : Ticket
  suspended : Bool
  state : CoreState
  deriving DecidableEq, Repr

/-- Result of one `Release` call: whether a wake signal was sent on
`q.wait`, and the state it leaves behind. -/
structure ReleaseResult where
  signalled : Bool
  state : CoreState
  deriving DecidableEq, Repr

/-- Embedding of `StaticQuotaEnforcer.Acquire`:
`q.n.Add(-1)` then, if the new value is negative, block on the `select`
between `ctx.Done()` (return `false`) and `<-q.wait` (fall through);
otherwise fall through and return `emptyTicket{}`. -/
def StaticQuotaEnforcer.Acquire (outcome : SelectOutcome) (q : CoreState) :
    AcquireResult :=
  let n' := q.counter - 1
  if n' < 0 then
    match outcome with
    | .ctxDone => ⟨.boolTicket false, true, ⟨n', q.pending⟩⟩
    | .wakeRecv => ⟨.emptyTicket, true, ⟨n', q.pending - 1⟩⟩
  else
    ⟨.emptyTicket, false, ⟨n', q.pending⟩⟩

/-- Embedding of `StaticQuotaEnforcer.Release`: `q.n.Add(1)` and, if the
new value is `≤ 0`, send one signal on `q.wait`.  The ticket argument is
the blank `_ Ticket` of the Go source. -/
def StaticQuotaEnforcer.Release (_t : Ticket) (q : CoreState) :
    ReleaseResult :=
  let n' := q.counter + 1
  if n' ≤ 0 then
    ⟨true, ⟨n', q.pending + 1⟩⟩
  else
    ⟨false, ⟨n', q.pending⟩⟩

/-- Embedding of `NewStaticQuotaEnforcer`: the counter is stored as
`int64(n)` for a `uint32` argument and the wake channel starts empty. -/
def NewStaticQuotaEnforcer (n : Nat) : CoreState :=
  ⟨(n : Int), 0⟩

/-- A state of one enforcer used under the documented discipline, with
ghost counters: `granted` tickets outstanding (acquired, not yet
released), callers currently `blocked` in the `select`, and `denied`
(cancelled) calls so far. -/
structure TraceState where
  core : CoreState
  granted : Nat
  blocked : Nat
  denied : Nat
  deriving DecidableEq, Repr

/-- One step of the enforcer under the package's usage discipline:
Acquire calls are synchronous (a new call starts only when no caller is
blocked, the single-outstanding-waiter assumption) and only outstanding
granted tickets are released (ticket discipline).  A blocking Acquire is
split into its decrement (`acquireBlock`) and its resolution
(`blockedCancel` from `ctx.Done()`, `blockedWake` from `<-q.wait`). -/
inductive Step : TraceState → TraceState → Prop where
  | acquireFast (s : TraceState) (o : SelectOutcome) :
      1 ≤ s.core.counter → s.blocked = 0 →
      Step s ⟨(StaticQuotaEnforcer.Acquire o s.core).state,
              s.granted + 1, s.blocked, s.denied⟩
  | acquireBlock (s : TraceState) :
      s.core.counter ≤ 0 → s.blocked = 0 →
      Step s ⟨⟨s.core.counter - 1, s.core.pending⟩,
              s.granted, s.blocked + 1, s.denied⟩
  | blockedCancel (s : TraceState) :
      1 ≤ s.blocked →
      Step s ⟨s.core, s.granted, s.blocked - 1, s.denied + 1⟩
  | blockedWake (s : TraceState) :
      1 ≤ s.blocked → 1 ≤ s.core.pending →
      Step s ⟨⟨s.core.counter, s.core.pending - 1⟩,
              s.granted + 1, s.blocked - 1, s.denied⟩
  | releaseStep (s : TraceState) (t : Ticket) :
      1 ≤ s.granted →
      Step s ⟨(StaticQuotaEnforcer.Release t s.core).state,
              s.granted - 1, s.blocked, s.denied⟩

/-- The initial trace state of an enforcer of capacity `cap`. -/
def initialState (cap : Nat) : TraceState :=
  ⟨NewStaticQuotaEnforcer cap, 0, 0, 0⟩

/-- States reachable from a fresh enforcer of capacity `cap` under the
usage discipline. -/
def Reachable (cap : Nat) (s : TraceState) : Prop :=
  Relation.ReflTransGen Step (initialState cap) s

/-- Inductive invariant of the enforcer: the granted tickets, the pending
wake signals and the free slots (`max counter 0`) always partition the
capacity, and the counter records capacity minus every decrement not yet
matched by a release. -/
def QuotaInv (cap : Nat) (s : TraceState) : Prop :=
  (s.granted : Int) + s.core.pending + max s.core.counter 0 = cap ∧
  s.core.counter = (cap : Int) - s.granted - s.blocked - s.denied

theorem quotaInv_initial (cap : Nat) : QuotaInv cap (initialState cap) := by
  constructor <;> simp [initialState, NewStaticQuotaEnforcer]

theorem quotaInv_step {cap : Nat} {s s' : TraceState}
    (hinv : QuotaInv cap s) (hstep : Step s s') : QuotaInv cap s' := by
  obtain ⟨h1, h2⟩ := hinv
  cases hstep with
  | acquireFast o hc hb =>
      cases o <;>
        · simp only [QuotaInv, StaticQuotaEnforcer.Acquire] at *
          split <;> constructor <;> push_cast at * <;> omega
  | acquireBlock hc hb =>
      constructor <;> simp only [QuotaInv] at * <;> push_cast at * <;> omega
  | blockedCancel hb =>
      constructor <;> simp only [QuotaInv] at * <;> push_cast at * <;> omega
  | blockedWake hb hp =>
      constructor <;> simp only [QuotaInv] at * <;> push_cast at * <;> omega
  | releaseStep t hg =>
      simp only [QuotaInv, StaticQuotaEnforcer.Release] at *
      split <;> constructor <;> push_cast at * <;> omega

theorem quotaInv_reachable {cap : Nat} {s : TraceState}
    (h : Reachable cap s) : QuotaInv cap s := by
  induction h with
  | refl => exact quotaInv_initial cap
  | tail _ hstep ih => exact quotaInv_step ih hstep

/-- C1: For every capacity `cap` and every reachable state under the
single-outstanding-waiter assumption and ticket discipline, at most `cap`
tickets are simultaneously in the granted (acquired, not yet released)
state. -/
theorem acquired_tickets_le_capacity {cap : Nat} {s : TraceState}
    (h : Reachable cap s) : s.granted ≤ cap := by
  obtain ⟨h1, _⟩ := quotaInv_reachable h
  have hp : (0 : Int) ≤ s.core.pending := Int.ofNat_nonneg _
  have hm : (0 : Int) ≤ max s.core.counter 0 := le_max_right _ _
  omega

theorem acquired_tickets_le_capacity_witness :
    Reachable 3 (initialState 3) ∧ (initialState 3).granted ≤ 3 :=
  ⟨Relation.ReflTransGen.refl,
   acquired_tickets_le_capacity Relation.ReflTransGen.refl⟩

theorem reach_one_granted : Reachable 1 ⟨⟨0, 0⟩, 1, 0, 0⟩ := by
  exact Relation.ReflTransGen.single
    (Step.acquireFast (initialState 1) SelectOutcome.ctxDone (by decide) rfl)

theorem reach_one_blocked : Reachable 1 ⟨⟨-1, 0⟩, 1, 1, 0⟩ := by
  exact Relation.ReflTransGen.tail reach_one_granted
    (Step.acquireBlock ⟨⟨0, 0⟩, 1, 0, 0⟩ (by decide) rfl)

theorem reach_one_cancelled : Reachable 1 ⟨⟨-1, 0⟩, 1, 0, 1⟩ := by
  exact Relation.ReflTransGen.tail reach_one_blocked
    (Step.blockedCancel ⟨⟨-1, 0⟩, 1, 1, 0⟩ (by decide))

theorem reach_leaked : Reachable 1 ⟨⟨0, 1⟩, 0, 0, 1⟩ := by
  exact Relation.ReflTransGen.tail reach_one_cancelled
    (Step.releaseStep ⟨⟨-1, 0⟩, 1, 0, 1⟩ Ticket.emptyTicket (by decide))

/-- C2 counterexample: The claim that `capacity - granted = counter`
whenever `counter ≥ 0` fails after a cancelled Acquire: with capacity 1,
after a fast acquire, a blocking acquire cancelled by its context, and a
release of the granted ticket, the state `⟨⟨0, 1⟩, 0, 0, 1⟩` is reachable:
its counter is `0 ≥ 0` but `1 - granted = 1 ≠ 0`. -/
theorem counter_tracks_capacity_minus_granted_cex :
    Reachable 1 ⟨⟨0, 1⟩, 0, 0, 1⟩ ∧
    0 ≤ (⟨⟨0, 1⟩, 0, 0, 1⟩ : TraceState).core.counter ∧
    (1 : Int) - (⟨⟨0, 1⟩, 0, 0, 1⟩ : TraceState).granted ≠
      (⟨⟨0, 1⟩, 0, 0, 1⟩ : TraceState).core.counter :=
  ⟨reach_leaked, by decide, by decide⟩

/-- C2 amended: In every reachable state, the counter equals the
capacity minus the outstanding granted tickets, minus the currently
blocked waiters, minus the denied (cancelled) calls; only when no
cancellation has occurred and no waiter is blocked does it reduce to
`capacity - granted`. -/
theorem counter_tracks_capacity_minus_granted {cap : Nat} {s : TraceState}
    (h : Reachable cap s) :
    s.core.counter =
      (cap : Int) - s.granted - s.blocked - s.denied :=
  (quotaInv_reachable h).2

theorem counter_tracks_capacity_minus_granted_witness :
    Reachable 1 (initialState 1) ∧
    (initialState 1).core.counter =
      (1 : Int) - (initialState 1).granted - (initialState 1).blocked -
        (initialState 1).denied :=
  ⟨Relation.ReflTransGen.refl,
   counter_tracks_capacity_minus_granted Relation.ReflTransGen.refl⟩

/-- C3: If the counter is `≥ 1` when `Acquire` is called then, whatever
the state of the context and wake channel, the call takes the non-blocking
fast path: it returns the granted ticket `emptyTicket{}`, never enters the
blocking `select`, decrements the counter by exactly one and leaves the
wake channel untouched. -/
theorem acquire_fast_when_counter_positive (q : CoreState) (o : SelectOutcome)
    (h : 1 ≤ q.counter) :
    StaticQuotaEnforcer.Acquire o q =
      ⟨Ticket.emptyTicket, false, ⟨q.counter - 1, q.pending⟩⟩ := by
  simp only [StaticQuotaEnforcer.Acquire]
  rw [if_neg (by omega)]

theorem acquire_fast_when_counter_positive_witness :
    (1 : Int) ≤ (⟨1, 0⟩ : CoreState).counter ∧
    StaticQuotaEnforcer.Acquire SelectOutcome.ctxDone ⟨1, 0⟩ =
      ⟨Ticket.emptyTicket, false, ⟨(1 : Int) - 1, 0⟩⟩ :=
  ⟨by decide,
   acquire_fast_when_counter_positive ⟨1, 0⟩ SelectOutcome.ctxDone (by decide)⟩

/-- C4: When the post-decrement counter is negative and the context is
already done (the `ctx.Done()` case of the `select` fires), `Acquire`
returns the denied ticket `false` after suspending, and the counter is not
restored: the state keeps the decrement, so a cancelled Acquire has net
effect `-1` on the counter. -/
theorem acquire_cancelled_leaks_decrement (q : CoreState)
    (h : q.counter - 1 < 0) :
    StaticQuotaEnforcer.Acquire SelectOutcome.ctxDone q =
      ⟨Ticket.boolTicket false, true, ⟨q.counter - 1, q.pending⟩⟩ := by
  simp only [StaticQuotaEnforcer.Acquire]
  rw [if_pos h]

theorem acquire_cancelled_leaks_decrement_witness :
    (⟨0, 0⟩ : CoreState).counter - 1 < 0 ∧
    StaticQuotaEnforcer.Acquire SelectOutcome.ctxDone ⟨0, 0⟩ =
      ⟨Ticket.boolTicket false, true, ⟨(0 : Int) - 1, 0⟩⟩ :=
  ⟨by decide, acquire_cancelled_leaks_decrement ⟨0, 0⟩ (by decide)⟩

/-- C5: Every `Release` call increments the counter by exactly one,
reports a signal exactly when the post-increment value is `≤ 0`, and in
that case (and only then) puts exactly one extra signal on the wake
channel. -/
theorem release_increments_and_signals (t : Ticket) (q : CoreState) :
    (StaticQuotaEnforcer.Release t q).state.counter = q.counter + 1 ∧
    (StaticQuotaEnforcer.Release t q).signalled =
      decide (q.counter + 1 ≤ 0) ∧
    (StaticQuotaEnforcer.Release t q).state.pending =
      q.pending + (if q.counter + 1 ≤ 0 then 1 else 0) := by
  simp only [StaticQuotaEnforcer.Release]
  split <;> rename_i hcase <;> simp [hcase]

/-- C6 counterexample: The claim that a release signals exactly when
the post-increment counter is negative fails at counter `-1` (reachable
with capacity 1 via a fast acquire followed by a blocking acquire): the
post-increment counter is `0`, which is not negative, yet the code's
`≤ 0` test sends a wake signal. -/
theorem release_signals_iff_negative_cex :
    Reachable 1 ⟨⟨-1, 0⟩, 1, 1, 0⟩ ∧
    (StaticQuotaEnforcer.Release Ticket.emptyTicket ⟨-1, 0⟩).signalled = true ∧
    ¬ (StaticQuotaEnforcer.Release Ticket.emptyTicket ⟨-1, 0⟩).state.counter
        < 0 :=
  ⟨reach_one_blocked, by decide, by decide⟩

/-- C6 amended: A `Release` call sends a wake signal exactly when it
observes a non-positive (`≤ 0`) post-increment counter: one signal per
release whose post-increment value is `≤ 0`, and none otherwise. -/
theorem release_signals_iff_nonpositive (t : Ticket) (q : CoreState) :
    (StaticQuotaEnforcer.Release t q).signalled = true ↔
      q.counter + 1 ≤ 0 := by
  simp only [StaticQuotaEnforcer.Release]
  split <;> rename_i hcase <;> simp [hcase]

/-- C7: `NewStaticQuotaEnforcer n` (for any `n` in the range of the Go
`uint32` argument) yields an enforcer whose counter is `n` and whose wake
channel is empty. -/
theorem newStaticQuotaEnforcer_initial (n : Nat) (_h : n < 2 ^ 32) :
    (NewStaticQuotaEnforcer n).counter = (n : Int) ∧
    (NewStaticQuotaEnforcer n).pending = 0 :=
  ⟨rfl, rfl⟩

theorem newStaticQuotaEnforcer_initial_witness :
    5 < 2 ^ 32 ∧
    (NewStaticQuotaEnforcer 5).counter = (5 : Int) ∧
    (NewStaticQuotaEnforcer 5).pending = 0 :=
  ⟨by decide, newStaticQuotaEnforcer_initial 5 (by decide)⟩

/-- C8: Round-trip: if `Acquire` succeeds on the non-blocking fast
path (counter `≥ 1`), then releasing the granted ticket restores the
whole enforcer state — counter and wake channel — to its pre-acquire
value without signalling, so exactly one more non-blocking acquire is
enabled than after the acquire alone. -/
theorem acquire_release_round_trip (q : CoreState) (o : SelectOutcome)
    (t : Ticket) (h : 1 ≤ q.counter) :
    StaticQuotaEnforcer.Release t (StaticQuotaEnforcer.Acquire o q).state =
      ⟨false, q⟩ ∧
    max (StaticQuotaEnforcer.Release t
          (StaticQuotaEnforcer.Acquire o q).state).state.counter 0 =
      max (StaticQuotaEnforcer.Acquire o q).state.counter 0 + 1 := by
  simp only [StaticQuotaEnforcer.Acquire]
  rw [if_neg (by omega)]
  simp only [StaticQuotaEnforcer.Release]
  rw [if_neg (by omega)]
  constructor
  · simp [sub_add_cancel]
  · simp only
    omega

theorem acquire_release_round_trip_witness :
    (1 : Int) ≤ (⟨1, 0⟩ : CoreState).counter ∧
    (StaticQuotaEnforcer.Release Ticket.emptyTicket
        (StaticQuotaEnforcer.Acquire SelectOutcome.wakeRecv ⟨1, 0⟩).state =
      ⟨false, ⟨1, 0⟩⟩ ∧
     max (StaticQuotaEnforcer.Release Ticket.emptyTicket
          (StaticQuotaEnforcer.Acquire SelectOutcome.wakeRecv
            ⟨1, 0⟩).state).state.counter 0 =
      max (StaticQuotaEnforcer.Acquire SelectOutcome.wakeRecv
            ⟨1, 0⟩).state.counter 0 + 1) :=
  ⟨by decide,
   acquire_release_round_trip ⟨1, 0⟩ SelectOutcome.wakeRecv
     Ticket.emptyTicket (by decide)⟩

/-- C9: The cancellation token is consulted only on the blocking slow
path: whenever the post-decrement counter is `≥ 0`, `Acquire` returns the
granted ticket without suspending, for every `select` oracle — in
particular even when the context is already done (`ctxDone`). -/
theorem acquire_ignores_done_context_on_fast_path (q : CoreState)
    (o : SelectOutcome) (h : 0 ≤ q.counter - 1) :
    (StaticQuotaEnforcer.Acquire o q).ticket = Ticket.emptyTicket ∧
    (StaticQuotaEnforcer.Acquire o q).suspended = false := by
  simp only [StaticQuotaEnforcer.Acquire]
  rw [if_neg (by omega)]
  exact ⟨rfl, rfl⟩

theorem acquire_ignores_done_context_on_fast_path_witness :
    (0 : Int) ≤ (⟨1, 0⟩ : CoreState).counter - 1 ∧
    ((StaticQuotaEnforcer.Acquire SelectOutcome.ctxDone ⟨1, 0⟩).ticket =
        Ticket.emptyTicket ∧
     (StaticQuotaEnforcer.Acquire SelectOutcome.ctxDone ⟨1, 0⟩).suspended =
        false) :=
  ⟨by decide,
   acquire_ignores_done_context_on_fast_path ⟨1, 0⟩ SelectOutcome.ctxDone
     (by decide)⟩

/-- C10: `Release` ignores its ticket argument entirely: for every two
ticket values — granted (`emptyTicket`), denied (`boolTicket false`), any
boolean, or any other `interface{}` value — the effect on the enforcer is
identical, so the rule that a denied ticket must never be released is not
enforced by the implementation. -/
theorem release_ignores_ticket (t1 t2 : Ticket) (q : CoreState) :
    StaticQuotaEnforcer.Release t1 q = StaticQuotaEnforcer.Release t2 q :=
  rfl
